import Mathlib

/-!
Instruction editor selection state (`NewInstructionEditor.js`).

A shallow embedding of the hook `useNewInstructionEditor` of
`newIDE/app/src/EventsSheet/InstructionEditor/NewInstructionEditor.js`.

* The mutable `gdInstruction` handle is passed explicitly: every function that
  can call `instruction.setType` returns the handle's new contents.
* The state kept by `React.useState` is passed explicitly: a setter receives
  the state of the current render and returns the state it commits with
  `setState` next to the record it returns.
* The functions imported from other modules (`enumerateObjectInstructions`,
  `enumerateInstructions`, `getObjectParameterIndex`, `createTree`,
  `filterEnumeratedInstructionOrExpressionMetadataByScope`) are not part of this
  file of the repository; they are taken as parameters (`Collaborators`), as are
  the types of the values they exchange.
* The exported helper `getInstructionMetadata` is embedded next to the hook; the
  metadata provider and `project.getCurrentPlatform` are parameters
  (`MetadataHost`).
-/

namespace NewInstructionEditor

/-! ## Data model -/

/-- The `scope` of an enumerated instruction: the object metadata and the
behavior metadata it is tied to, each possibly absent (`null`). The hook only
tests the two fields for presence. -/
structure InstructionOrExpressionScope (ObjMeta BehMeta : Type) where
  objectMetadata : Option ObjMeta
  behaviorMetadata : Option BehMeta
deriving DecidableEq, Repr

/-- The fields of `EnumeratedInstructionOrExpressionMetadata` that the hook
reads: `type`, `metadata` and `scope`. -/
structure EnumeratedInstructionOrExpressionMetadata (Meta ObjMeta BehMeta : Type) where
  type : String
  metadata : Meta
  scope : InstructionOrExpressionScope ObjMeta BehMeta
deriving DecidableEq, Repr

/-- The contents of a `gdInstruction` handle as far as the hook touches them:
the declared type (read by `getType`, written by `setType`) and the indexed
access `getParameter`. The index is a JavaScript number, here an integer. -/
structure gdInstruction where
  type : String
  getParameter : Int → String

/-- The method `instruction.getType()`. -/
def gdInstruction.getType (instruction : gdInstruction) : String :=
  instruction.type

/-- The method `instruction.setType(type)`: overwrites the declared type and
nothing else. -/
def gdInstruction.setType (instruction : gdInstruction) (type : String) : gdInstruction :=
  { instruction with type := type }

/-- JavaScript truthiness of a string: every string but the empty one. -/
def truthy (s : String) : Bool :=
  s != ""

/-- The type `NewInstructionEditorState`: three nullable fields. -/
structure NewInstructionEditorState (Meta ObjMeta BehMeta Tree : Type) where
  chosenObjectName : Option String
  chosenObjectInstructionsInfo :
    Option (List (EnumeratedInstructionOrExpressionMetadata Meta ObjMeta BehMeta))
  chosenObjectInstructionsInfoTree : Option Tree
deriving DecidableEq, Repr

/-- The functions the module imports, taken as parameters. -/
structure Collaborators (Meta ObjMeta BehMeta Tree Scope Container : Type) where
  /-- Imported `enumerateObjectInstructions(isCondition, globalObjectsContainer,
  objectsContainer, objectName)`. -/
  enumerateObjectInstructions : Bool → Container → Container → String →
    List (EnumeratedInstructionOrExpressionMetadata Meta ObjMeta BehMeta)
  /-- Imported `enumerateInstructions(isCondition)`. -/
  enumerateInstructions : Bool →
    List (EnumeratedInstructionOrExpressionMetadata Meta ObjMeta BehMeta)
  /-- Imported `getObjectParameterIndex(metadata)`, `-1` when there is none. -/
  getObjectParameterIndex : Meta → Int
  /-- Imported `createTree(list)`: always a tree node, never `null`. -/
  createTree : List (EnumeratedInstructionOrExpressionMetadata Meta ObjMeta BehMeta) → Tree
  /-- Imported `filterEnumeratedInstructionOrExpressionMetadataByScope(list, scope)`. -/
  filterEnumeratedInstructionOrExpressionMetadataByScope :
    List (EnumeratedInstructionOrExpressionMetadata Meta ObjMeta BehMeta) → Scope →
    List (EnumeratedInstructionOrExpressionMetadata Meta ObjMeta BehMeta)

/-- The type `Parameters` of the hook, without `project`, which the hook
destructures and never uses. `instruction` is the current contents of the
handle. -/
structure Parameters (Scope Container : Type) where
  instruction : gdInstruction
  isCondition : Bool
  isNewInstruction : Bool
  scope : Scope
  globalObjectsContainer : Container
  objectsContainer : Container

/-- What a setter leaves behind: the record it returns (`instruction` and the
three spread fields of a state) and the state held by `React.useState` once the
call is over. -/
structure SetterResult (Meta ObjMeta BehMeta Tree : Type) where
  instruction : gdInstruction
  returned : NewInstructionEditorState Meta ObjMeta BehMeta Tree
  hookState : NewInstructionEditorState Meta ObjMeta BehMeta Tree

section Hook

variable {Meta ObjMeta BehMeta Tree Scope Container : Type}

/-! ## The functions of the module -/

/-- The helper `findInstruction`: `list.find(({ type }) => type === instructionType)`,
the first element whose type is the given one, if any. -/
def findInstruction
    (list : List (EnumeratedInstructionOrExpressionMetadata Meta ObjMeta BehMeta))
    (instructionType : String) :
    Option (EnumeratedInstructionOrExpressionMetadata Meta ObjMeta BehMeta) :=
  list.find? (fun d => d.type == instructionType)

/-- The literal `{chosenObjectName: null, chosenObjectInstructionsInfo: null,
chosenObjectInstructionsInfoTree: null}`. -/
def unsetState : NewInstructionEditorState Meta ObjMeta BehMeta Tree :=
  { chosenObjectName := none
    chosenObjectInstructionsInfo := none
    chosenObjectInstructionsInfoTree := none }

/-- The closure `getChosenObjectState(objectName,
discardInstructionTypeIfNotInObjectInstructions)`: the handle after the call
and the state returned. -/
def getChosenObjectState
    (c : Collaborators Meta ObjMeta BehMeta Tree Scope Container)
    (p : Parameters Scope Container)
    (objectName : String) (discardInstructionTypeIfNotInObjectInstructions : Bool) :
    gdInstruction × NewInstructionEditorState Meta ObjMeta BehMeta Tree :=
  let chosenObjectInstructionsInfo :=
    c.filterEnumeratedInstructionOrExpressionMetadataByScope
      (c.enumerateObjectInstructions p.isCondition p.globalObjectsContainer
        p.objectsContainer objectName)
      p.scope
  let instruction :=
    if truthy p.instruction.getType && discardInstructionTypeIfNotInObjectInstructions then
      match findInstruction chosenObjectInstructionsInfo p.instruction.getType with
      | none => p.instruction.setType ""
      | some _ => p.instruction
    else p.instruction
  (instruction,
    { chosenObjectName := some objectName
      chosenObjectInstructionsInfo := some chosenObjectInstructionsInfo
      chosenObjectInstructionsInfoTree := some (c.createTree chosenObjectInstructionsInfo) })

/-- The closure `getInitialState`, run once by `React.useState`: the handle
after the call and the initial state. -/
def getInitialState
    (c : Collaborators Meta ObjMeta BehMeta Tree Scope Container)
    (p : Parameters Scope Container) :
    gdInstruction × NewInstructionEditorState Meta ObjMeta BehMeta Tree :=
  if !p.isNewInstruction then
    let allInstructions := c.enumerateInstructions p.isCondition
    let instructionType := p.instruction.getType
    match findInstruction allInstructions instructionType with
    | some enumeratedInstructionMetadata =>
      if enumeratedInstructionMetadata.scope.objectMetadata.isSome ||
          enumeratedInstructionMetadata.scope.behaviorMetadata.isSome then
        let objectParameterIndex :=
          c.getObjectParameterIndex enumeratedInstructionMetadata.metadata
        if objectParameterIndex ≠ -1 then
          getChosenObjectState c p (p.instruction.getParameter objectParameterIndex) false
        else (p.instruction, unsetState)
      else (p.instruction, unsetState)
    | none => (p.instruction, unsetState)
  else (p.instruction, unsetState)

/-- The setter `chooseObject(objectName)`, called in a render whose state is
`state` (which it does not read). -/
def chooseObject
    (c : Collaborators Meta ObjMeta BehMeta Tree Scope Container)
    (p : Parameters Scope Container)
    (_state : NewInstructionEditorState Meta ObjMeta BehMeta Tree)
    (objectName : String) : SetterResult Meta ObjMeta BehMeta Tree :=
  let newState := getChosenObjectState c p objectName true
  { instruction := newState.1, returned := newState.2, hookState := newState.2 }

/-- The setter `chooseObjectInstruction(type)`, called in a render whose state
is `state`. -/
def chooseObjectInstruction
    (c : Collaborators Meta ObjMeta BehMeta Tree Scope Container)
    (p : Parameters Scope Container)
    (state : NewInstructionEditorState Meta ObjMeta BehMeta Tree)
    (type : String) : SetterResult Meta ObjMeta BehMeta Tree :=
  let p1 := { p with instruction := p.instruction.setType type }
  match state.chosenObjectName with
  | some chosenObjectName =>
    if truthy chosenObjectName then
      let newState := getChosenObjectState c p1 chosenObjectName true
      { instruction := newState.1, returned := newState.2, hookState := newState.2 }
    else { instruction := p1.instruction, returned := state, hookState := state }
  | none => { instruction := p1.instruction, returned := state, hookState := state }

/-- The setter `chooseFreeInstruction(type)`, called in a render whose state is
`state` (which it does not read). -/
def chooseFreeInstruction
    (p : Parameters Scope Container)
    (_state : NewInstructionEditorState Meta ObjMeta BehMeta Tree)
    (type : String) : SetterResult Meta ObjMeta BehMeta Tree :=
  { instruction := p.instruction.setType type
    returned := unsetState
    hookState := unsetState }

/-- The list `filterByScope(enumerateForObject(mode, objectName), scope)` of the
specification, written with the imported functions and the parameters of the
hook. -/
def scopedObjectInstructions
    (c : Collaborators Meta ObjMeta BehMeta Tree Scope Container)
    (p : Parameters Scope Container) (objectName : String) :
    List (EnumeratedInstructionOrExpressionMetadata Meta ObjMeta BehMeta) :=
  c.filterEnumeratedInstructionOrExpressionMetadataByScope
    (c.enumerateObjectInstructions p.isCondition p.globalObjectsContainer
      p.objectsContainer objectName)
    p.scope

/-! ## Sequences of setter calls -/

/-- One call of a setter of the hook. -/
inductive Action where
  | chooseFreeInstruction (type : String)
  | chooseObject (objectName : String)
  | chooseObjectInstruction (type : String)
deriving DecidableEq, Repr

/-- The setter call `a` made in a render whose state is `state`, the handle
holding `instruction`. -/
def applyAction
    (c : Collaborators Meta ObjMeta BehMeta Tree Scope Container)
    (p : Parameters Scope Container)
    (instruction : gdInstruction)
    (state : NewInstructionEditorState Meta ObjMeta BehMeta Tree) :
    Action → SetterResult Meta ObjMeta BehMeta Tree
  | .chooseFreeInstruction type =>
    chooseFreeInstruction { p with instruction := instruction } state type
  | .chooseObject objectName =>
    chooseObject c { p with instruction := instruction } state objectName
  | .chooseObjectInstruction type =>
    chooseObjectInstruction c { p with instruction := instruction } state type

/-- The handle and the state of the hook after the setter calls `actions`, one
per render, started from the handle `w.1` and the state `w.2`. -/
def runActions
    (c : Collaborators Meta ObjMeta BehMeta Tree Scope Container)
    (p : Parameters Scope Container)
    (w : gdInstruction × NewInstructionEditorState Meta ObjMeta BehMeta Tree) :
    List Action → gdInstruction × NewInstructionEditorState Meta ObjMeta BehMeta Tree
  | [] => w
  | a :: actions =>
    let r := applyAction c p w.1 w.2 a
    runActions c p (r.instruction, r.hookState) actions

/-- The handle and the state of the hook after mounting it with `p` (which runs
`getInitialState`) and then making the setter calls `actions`. -/
def session
    (c : Collaborators Meta ObjMeta BehMeta Tree Scope Container)
    (p : Parameters Scope Container) (actions : List Action) :
    gdInstruction × NewInstructionEditorState Meta ObjMeta BehMeta Tree :=
  runActions c p (getInitialState c p) actions

/-- The three fields of a state are unset together or set together. -/
def AllUnsetOrAllSet (s : NewInstructionEditorState Meta ObjMeta BehMeta Tree) : Prop :=
  (s.chosenObjectName = none ∧ s.chosenObjectInstructionsInfo = none ∧
      s.chosenObjectInstructionsInfoTree = none) ∨
    (s.chosenObjectName.isSome ∧ s.chosenObjectInstructionsInfo.isSome ∧
      s.chosenObjectInstructionsInfoTree.isSome)

/-- The list and the tree of a state are the ones of its chosen object: when
`chosenObjectName` is set to `n`, `chosenObjectInstructionsInfo` is the
scope-filtered list of the instructions of `n` and
`chosenObjectInstructionsInfoTree` is `createTree` of that list. -/
def ObjectStateCoherent
    (c : Collaborators Meta ObjMeta BehMeta Tree Scope Container)
    (p : Parameters Scope Container)
    (s : NewInstructionEditorState Meta ObjMeta BehMeta Tree) : Prop :=
  ∀ n : String, s.chosenObjectName = some n →
    s.chosenObjectInstructionsInfo = some (scopedObjectInstructions c p n) ∧
    s.chosenObjectInstructionsInfoTree =
      some (c.createTree (scopedObjectInstructions c p n))

end Hook

/-! ## The helper `getInstructionMetadata` -/

/-- The parts of the host that `getInstructionMetadata` calls, taken as
parameters: the two lookups of `gd.MetadataProvider` and the method
`project.getCurrentPlatform()`. -/
structure MetadataHost (Project Platform InstructionMetadata : Type) where
  /-- Lookup `gd.MetadataProvider.getConditionMetadata(platform, type)`. -/
  getConditionMetadata : Platform → String → InstructionMetadata
  /-- Lookup `gd.MetadataProvider.getActionMetadata(platform, type)`. -/
  getActionMetadata : Platform → String → InstructionMetadata
  /-- Method `project.getCurrentPlatform()`. -/
  getCurrentPlatform : Project → Platform

/-- The exported helper `getInstructionMetadata({instructionType, isCondition,
project})`; `none` is `null`. -/
def getInstructionMetadata {Project Platform InstructionMetadata : Type}
    (gd : MetadataHost Project Platform InstructionMetadata)
    (instructionType : String) (isCondition : Bool) (project : Project) :
    Option InstructionMetadata :=
  if !truthy instructionType then none
  else if isCondition then
    some (gd.getConditionMetadata (gd.getCurrentPlatform project) instructionType)
  else
    some (gd.getActionMetadata (gd.getCurrentPlatform project) instructionType)

/-! ## Concrete collaborators used to evaluate the functions -/

/-- A descriptor tied to an object, with the given type and metadata. -/
def objectDescriptor (type : String) (metadata : Nat) :
    EnumeratedInstructionOrExpressionMetadata Nat Unit Unit :=
  { type := type, metadata := metadata,
    scope := { objectMetadata := some (), behaviorMetadata := none } }

/-- A free descriptor, with the given type and metadata. -/
def freeDescriptor (type : String) (metadata : Nat) :
    EnumeratedInstructionOrExpressionMetadata Nat Unit Unit :=
  { type := type, metadata := metadata,
    scope := { objectMetadata := none, behaviorMetadata := none } }

/-- Sample collaborators: the object `Player` has the instruction
`ObjectA::Collision`, every other object has none; the catalog holds that
instruction and the free `Free::Wait`; the filter keeps everything; the tree is
the list of the types; the object parameter is the metadata minus one. -/
def sampleCollaborators : Collaborators Nat Unit Unit (List String) Unit Unit where
  enumerateObjectInstructions := fun _ _ _ objectName =>
    if objectName = "Player" then [objectDescriptor "ObjectA::Collision" 1] else []
  enumerateInstructions := fun _ =>
    [freeDescriptor "Free::Wait" 0, objectDescriptor "ObjectA::Collision" 1]
  getObjectParameterIndex := fun metadata => (metadata : Int) - 1
  createTree := fun list => list.map (fun d => d.type)
  filterEnumeratedInstructionOrExpressionMetadataByScope := fun list _ => list

/-- Sample parameters of the hook: an instruction of the given type whose
parameter 0 is `firstParameter`, in condition mode. -/
def sampleParameters (type firstParameter : String) (isNewInstruction : Bool) :
    Parameters Unit Unit :=
  { instruction := { type := type, getParameter := fun i => if i = 0 then firstParameter else "" }
    isCondition := true
    isNewInstruction := isNewInstruction
    scope := ()
    globalObjectsContainer := ()
    objectsContainer := () }

/-- Sample state: the object `objectName` chosen, with no instruction. -/
def sampleState (objectName : String) : NewInstructionEditorState Nat Unit Unit (List String) :=
  { chosenObjectName := some objectName
    chosenObjectInstructionsInfo := some []
    chosenObjectInstructionsInfoTree := some [] }

/-- The sample collaborators with another catalog. -/
def catalogCollaborators
    (catalog : List (EnumeratedInstructionOrExpressionMetadata Nat Unit Unit)) :
    Collaborators Nat Unit Unit (List String) Unit Unit :=
  { sampleCollaborators with enumerateInstructions := fun _ => catalog }

/-- A sample host for `getInstructionMetadata`: the platform of a project is its
name, and a metadata is the kind of the lookup, the platform and the type. -/
def sampleMetadataHost : MetadataHost String String (String × String × String) where
  getConditionMetadata := fun platform type => ("condition", platform, type)
  getActionMetadata := fun platform type => ("action", platform, type)
  getCurrentPlatform := fun project => project

end NewInstructionEditor

namespace NewInstructionEditor

section Lemmas

variable {Meta ObjMeta BehMeta Tree Scope Container : Type}

/-! ## Auxiliary facts -/

theorem truthy_eq_true_iff (s : String) : truthy s = true ↔ s ≠ "" := by
  simp [truthy]

theorem truthy_eq_false_iff (s : String) : truthy s = false ↔ s = "" := by
  simp [truthy]

theorem findInstruction_eq_none_iff
    (list : List (EnumeratedInstructionOrExpressionMetadata Meta ObjMeta BehMeta))
    (instructionType : String) :
    findInstruction list instructionType = none ↔
      ∀ d ∈ list, d.type ≠ instructionType := by
  simp [findInstruction, List.find?_eq_none]

theorem findInstruction_some_type
    {list : List (EnumeratedInstructionOrExpressionMetadata Meta ObjMeta BehMeta)}
    {instructionType : String}
    {d : EnumeratedInstructionOrExpressionMetadata Meta ObjMeta BehMeta}
    (h : findInstruction list instructionType = some d) :
    d ∈ list ∧ d.type = instructionType := by
  unfold findInstruction at h
  exact ⟨List.mem_of_find?_eq_some h, by simpa using List.find?_some h⟩

/-- When the type identifiers of a list are unique for `d`, the lookup of the
type of `d` finds `d`. -/
theorem findInstruction_eq_some_of_unique
    (list : List (EnumeratedInstructionOrExpressionMetadata Meta ObjMeta BehMeta))
    (d : EnumeratedInstructionOrExpressionMetadata Meta ObjMeta BehMeta)
    (hd : d ∈ list) (hu : ∀ e ∈ list, e.type = d.type → e = d) :
    findInstruction list d.type = some d := by
  cases hf : findInstruction list d.type with
  | none =>
    exact absurd rfl ((findInstruction_eq_none_iff list d.type).1 hf d hd)
  | some e =>
    obtain ⟨he, ht⟩ := findInstruction_some_type hf
    rw [hu e he ht]

theorem getChosenObjectState_snd
    (c : Collaborators Meta ObjMeta BehMeta Tree Scope Container)
    (p : Parameters Scope Container) (objectName : String) (discard : Bool) :
    (getChosenObjectState c p objectName discard).2 =
      { chosenObjectName := some objectName
        chosenObjectInstructionsInfo := some (scopedObjectInstructions c p objectName)
        chosenObjectInstructionsInfoTree :=
          some (c.createTree (scopedObjectInstructions c p objectName)) } := by
  rfl

theorem getChosenObjectState_fst_false
    (c : Collaborators Meta ObjMeta BehMeta Tree Scope Container)
    (p : Parameters Scope Container) (objectName : String) :
    (getChosenObjectState c p objectName false).1 = p.instruction := by
  simp [getChosenObjectState]

theorem getChosenObjectState_fst_of_absent
    (c : Collaborators Meta ObjMeta BehMeta Tree Scope Container)
    (p : Parameters Scope Container) (objectName : String)
    (hne : p.instruction.getType ≠ "")
    (habs : ∀ d ∈ scopedObjectInstructions c p objectName, d.type ≠ p.instruction.getType) :
    (getChosenObjectState c p objectName true).1 = p.instruction.setType "" := by
  have hf := (findInstruction_eq_none_iff _ _).2 habs
  unfold scopedObjectInstructions at hf
  simp [getChosenObjectState, (truthy_eq_true_iff _).2 hne, hf]

theorem getChosenObjectState_fst_of_not_absent
    (c : Collaborators Meta ObjMeta BehMeta Tree Scope Container)
    (p : Parameters Scope Container) (objectName : String)
    (h : ¬ (p.instruction.getType ≠ "" ∧
      ∀ d ∈ scopedObjectInstructions c p objectName, d.type ≠ p.instruction.getType)) :
    (getChosenObjectState c p objectName true).1 = p.instruction := by
  by_cases hne : p.instruction.getType = ""
  · simp [getChosenObjectState, (truthy_eq_false_iff _).2 hne]
  · have hnone : findInstruction (scopedObjectInstructions c p objectName)
        p.instruction.getType ≠ none := fun hf =>
      h ⟨hne, (findInstruction_eq_none_iff _ _).1 hf⟩
    unfold scopedObjectInstructions at hnone
    unfold getChosenObjectState
    simp only [(truthy_eq_true_iff _).2 hne, Bool.and_self, if_true]
    split
    · next hf => exact absurd hf hnone
    · rfl

theorem setType_getType (instruction : gdInstruction) (type : String) :
    (instruction.setType type).getType = type := rfl

/-! ## The setter `chooseObject` and the declared type -/

/-- Claim C1: `chooseObject(objectName)` clears a non-empty declared type to the
empty string exactly when that type was non-empty before the call and no
descriptor of the scope-filtered list of `objectName` has it; in every other
case the handle, and so its declared type, is what it was before the call. -/
theorem chooseObject_clears_type_iff
    (c : Collaborators Meta ObjMeta BehMeta Tree Scope Container)
    (p : Parameters Scope Container)
    (state : NewInstructionEditorState Meta ObjMeta BehMeta Tree)
    (objectName : String) :
    ((p.instruction.getType ≠ "" ∧
        (chooseObject c p state objectName).instruction.getType = "") ↔
      (p.instruction.getType ≠ "" ∧
        ∀ d ∈ scopedObjectInstructions c p objectName, d.type ≠ p.instruction.getType)) ∧
    ((p.instruction.getType ≠ "" ∧
        ∀ d ∈ scopedObjectInstructions c p objectName, d.type ≠ p.instruction.getType) →
      (chooseObject c p state objectName).instruction = p.instruction.setType "") ∧
    (¬ (p.instruction.getType ≠ "" ∧
        ∀ d ∈ scopedObjectInstructions c p objectName, d.type ≠ p.instruction.getType) →
      (chooseObject c p state objectName).instruction = p.instruction ∧
      (chooseObject c p state objectName).instruction.getType = p.instruction.getType) := by
  have hyes : (p.instruction.getType ≠ "" ∧
      ∀ d ∈ scopedObjectInstructions c p objectName, d.type ≠ p.instruction.getType) →
      (chooseObject c p state objectName).instruction = p.instruction.setType "" :=
    fun h => getChosenObjectState_fst_of_absent c p objectName h.1 h.2
  have hno : ¬ (p.instruction.getType ≠ "" ∧
      ∀ d ∈ scopedObjectInstructions c p objectName, d.type ≠ p.instruction.getType) →
      (chooseObject c p state objectName).instruction = p.instruction :=
    fun h => getChosenObjectState_fst_of_not_absent c p objectName h
  refine ⟨⟨fun h => ?_, fun h => ⟨h.1, ?_⟩⟩, hyes, fun h => ⟨hno h, by rw [hno h]⟩⟩
  · by_contra hc
    have := hno hc
    rw [this] at h
    exact h.1 h.2
  · rw [hyes h]
    rfl

/-- Scenario D of the specification, evaluated: with `ObjectA::Collision`
declared and `Enemy` having no instruction, `chooseObject("Enemy")` clears the
declared type and chooses `Enemy`. -/
theorem chooseObject_clears_type_iff_witness :
    (chooseObject sampleCollaborators (sampleParameters "ObjectA::Collision" "Player" false)
        (sampleState "Player") "Enemy").instruction.getType = "" ∧
    (chooseObject sampleCollaborators (sampleParameters "ObjectA::Collision" "Player" false)
        (sampleState "Player") "Enemy").returned.chosenObjectName = some "Enemy" :=
  ⟨congrArg gdInstruction.getType
      ((chooseObject_clears_type_iff sampleCollaborators
        (sampleParameters "ObjectA::Collision" "Player" false)
        (sampleState "Player") "Enemy").2.1 (by decide)),
    rfl⟩

/-! ## The initial state and the declared type -/

/-- Claim C2: `getInitialState` leaves the instruction handle, and so its
declared type, unchanged, whatever the instruction, the mode, the scope, the
containers and `isNewInstruction` are; in particular a declared type absent from
the scope-filtered list of the resolved object is kept. -/
theorem getInitialState_keeps_declared_type
    (c : Collaborators Meta ObjMeta BehMeta Tree Scope Container)
    (p : Parameters Scope Container) :
    (getInitialState c p).1 = p.instruction ∧
    (getInitialState c p).1.getType = p.instruction.getType := by
  have h : (getInitialState c p).1 = p.instruction := by
    unfold getInitialState
    dsimp only
    split
    · split
      · split
        · split
          · exact getChosenObjectState_fst_false c p _
          · rfl
        · rfl
      · rfl
    · rfl
  exact ⟨h, by rw [h]⟩

/-! ## The setter `chooseObjectInstruction` -/

/-- Claim C3, as stated, fails: with the object `Enemy` chosen (the state
`chooseObject("Enemy")` commits) and `Enemy` having no instruction,
`chooseObjectInstruction("ObjectA::Collision")` returns a handle whose declared
type is the empty string, not `ObjectA::Collision`. -/
theorem chooseObjectInstruction_type_counterexample :
    (session sampleCollaborators (sampleParameters "" "" true) [Action.chooseObject "Enemy"]).2 =
      sampleState "Enemy" ∧
    (chooseObjectInstruction sampleCollaborators (sampleParameters "" "" true)
        (sampleState "Enemy") "ObjectA::Collision").instruction.getType = "" ∧
    (chooseObjectInstruction sampleCollaborators (sampleParameters "" "" true)
        (sampleState "Enemy") "ObjectA::Collision").instruction.getType ≠
      "ObjectA::Collision" := by
  decide

/-- Claim C3, amended: after `chooseObjectInstruction(type)` the declared type of
the returned handle is `type`, except when the chosen object name is a non-empty
string, `type` is non-empty and no descriptor of the scope-filtered list of that
object has the type `type`: then the declared type is the empty string. -/
theorem chooseObjectInstruction_declared_type
    (c : Collaborators Meta ObjMeta BehMeta Tree Scope Container)
    (p : Parameters Scope Container)
    (state : NewInstructionEditorState Meta ObjMeta BehMeta Tree)
    (type : String) :
    ((∃ n, state.chosenObjectName = some n ∧ n ≠ "" ∧ type ≠ "" ∧
          ∀ d ∈ scopedObjectInstructions c p n, d.type ≠ type) →
      (chooseObjectInstruction c p state type).instruction.getType = "") ∧
    (¬ (∃ n, state.chosenObjectName = some n ∧ n ≠ "" ∧ type ≠ "" ∧
          ∀ d ∈ scopedObjectInstructions c p n, d.type ≠ type) →
      (chooseObjectInstruction c p state type).instruction.getType = type) := by
  constructor
  · rintro ⟨n, hn, hne, ht, habs⟩
    unfold chooseObjectInstruction
    simp only [hn, (truthy_eq_true_iff n).2 hne, if_true]
    have hclear := getChosenObjectState_fst_of_absent c
      { p with instruction := p.instruction.setType type } n ht habs
    rw [hclear]
    rfl
  · intro h
    unfold chooseObjectInstruction
    cases hn : state.chosenObjectName with
    | none => rfl
    | some n =>
      by_cases hne : n = ""
      · simp only [(truthy_eq_false_iff n).2 hne]
        rfl
      · simp only [(truthy_eq_true_iff n).2 hne, if_true]
        have hkeep := getChosenObjectState_fst_of_not_absent c
          { p with instruction := p.instruction.setType type } n
          (fun hc => h ⟨n, hn, hne, hc.1, hc.2⟩)
        rw [hkeep]
        rfl

/-- The amended claim C3 evaluated on both sides: with `Player` chosen, choosing
its instruction `ObjectA::Collision` declares it, and choosing `Free::Wait`,
which `Player` does not have, leaves the declared type empty. -/
theorem chooseObjectInstruction_declared_type_witness :
    (chooseObjectInstruction sampleCollaborators (sampleParameters "" "" true)
        (sampleState "Player") "ObjectA::Collision").instruction.getType =
      "ObjectA::Collision" ∧
    (chooseObjectInstruction sampleCollaborators (sampleParameters "" "" true)
        (sampleState "Player") "Free::Wait").instruction.getType = "" :=
  ⟨(chooseObjectInstruction_declared_type sampleCollaborators
      (sampleParameters "" "" true) (sampleState "Player") "ObjectA::Collision").2
      (by decide),
    (chooseObjectInstruction_declared_type sampleCollaborators
      (sampleParameters "" "" true) (sampleState "Player") "Free::Wait").1
      ⟨"Player", rfl, by decide, by decide, by decide⟩⟩

/-- Claim C4, as stated, fails when the chosen object name is the empty string
(the state `chooseObject("")` commits): `chooseObjectInstruction` then keeps the
declared type `ObjectA::Collision`, while setting that type and running
`getChosenObjectState("", true)` clears it. -/
theorem chooseObjectInstruction_derivation_counterexample :
    (session sampleCollaborators (sampleParameters "" "" true) [Action.chooseObject ""]).2 =
      sampleState "" ∧
    (chooseObjectInstruction sampleCollaborators (sampleParameters "" "" true)
        (sampleState "") "ObjectA::Collision").instruction.getType = "ObjectA::Collision" ∧
    (getChosenObjectState sampleCollaborators
        (sampleParameters "ObjectA::Collision" "" true) "" true).1.getType = "" ∧
    (chooseObjectInstruction sampleCollaborators (sampleParameters "" "" true)
        (sampleState "") "ObjectA::Collision").instruction.getType ≠
      (getChosenObjectState sampleCollaborators
        (sampleParameters "ObjectA::Collision" "" true) "" true).1.getType := by
  decide

/-- Claim C4, amended: for every state whose chosen object name is a non-empty
string, `chooseObjectInstruction(type)` returns and commits the state, and
leaves the handle, that setting the declared type to `type` and then running
`getChosenObjectState(chosenObjectName, true)` gives. -/
theorem chooseObjectInstruction_eq_derivation
    (c : Collaborators Meta ObjMeta BehMeta Tree Scope Container)
    (p : Parameters Scope Container)
    (state : NewInstructionEditorState Meta ObjMeta BehMeta Tree)
    (type chosenObjectName : String)
    (hname : state.chosenObjectName = some chosenObjectName)
    (hne : chosenObjectName ≠ "") :
    (chooseObjectInstruction c p state type).instruction =
      (getChosenObjectState c { p with instruction := p.instruction.setType type }
        chosenObjectName true).1 ∧
    (chooseObjectInstruction c p state type).returned =
      (getChosenObjectState c { p with instruction := p.instruction.setType type }
        chosenObjectName true).2 ∧
    (chooseObjectInstruction c p state type).hookState =
      (getChosenObjectState c { p with instruction := p.instruction.setType type }
        chosenObjectName true).2 := by
  unfold chooseObjectInstruction
  simp [hname, (truthy_eq_true_iff chosenObjectName).2 hne]

/-- The amended claim C4 at a concrete input: `Player` chosen, the type
`Free::Wait` picked. -/
theorem chooseObjectInstruction_eq_derivation_witness :
    (chooseObjectInstruction sampleCollaborators (sampleParameters "" "" true)
        (sampleState "Player") "Free::Wait").returned =
      (getChosenObjectState sampleCollaborators
        { sampleParameters "" "" true with
          instruction := (sampleParameters "" "" true).instruction.setType "Free::Wait" }
        "Player" true).2 :=
  (chooseObjectInstruction_eq_derivation sampleCollaborators (sampleParameters "" "" true)
    (sampleState "Player") "Free::Wait" "Player" rfl (by decide)).2.1

/-! ## The invariant of the three fields -/

theorem allUnsetOrAllSet_unsetState :
    AllUnsetOrAllSet (unsetState : NewInstructionEditorState Meta ObjMeta BehMeta Tree) :=
  Or.inl ⟨rfl, rfl, rfl⟩

theorem allUnsetOrAllSet_getChosenObjectState
    (c : Collaborators Meta ObjMeta BehMeta Tree Scope Container)
    (p : Parameters Scope Container) (objectName : String) (discard : Bool) :
    AllUnsetOrAllSet (getChosenObjectState c p objectName discard).2 :=
  Or.inr ⟨rfl, rfl, rfl⟩

theorem allUnsetOrAllSet_iff_unset
    {s : NewInstructionEditorState Meta ObjMeta BehMeta Tree} (h : AllUnsetOrAllSet s) :
    s.chosenObjectName = none ↔
      (s.chosenObjectInstructionsInfo = none ∧ s.chosenObjectInstructionsInfoTree = none) := by
  rcases h with ⟨h1, h2, h3⟩ | ⟨h1, h2, h3⟩
  · exact ⟨fun _ => ⟨h2, h3⟩, fun _ => h1⟩
  · constructor
    · intro h
      rw [h] at h1
      exact absurd h1 (by simp)
    · intro h
      rw [h.1] at h2
      exact absurd h2 (by simp)

theorem allUnsetOrAllSet_getInitialState
    (c : Collaborators Meta ObjMeta BehMeta Tree Scope Container)
    (p : Parameters Scope Container) :
    AllUnsetOrAllSet (getInitialState c p).2 := by
  unfold getInitialState
  dsimp only
  split
  · split
    · split
      · split
        · exact allUnsetOrAllSet_getChosenObjectState c p _ false
        · exact allUnsetOrAllSet_unsetState
      · exact allUnsetOrAllSet_unsetState
    · exact allUnsetOrAllSet_unsetState
  · exact allUnsetOrAllSet_unsetState

theorem allUnsetOrAllSet_chooseObjectInstruction
    (c : Collaborators Meta ObjMeta BehMeta Tree Scope Container)
    (p : Parameters Scope Container)
    (state : NewInstructionEditorState Meta ObjMeta BehMeta Tree) (type : String)
    (h : AllUnsetOrAllSet state) :
    AllUnsetOrAllSet (chooseObjectInstruction c p state type).returned ∧
      AllUnsetOrAllSet (chooseObjectInstruction c p state type).hookState := by
  unfold chooseObjectInstruction
  dsimp only
  split
  · split
    · exact ⟨allUnsetOrAllSet_getChosenObjectState c _ _ true,
        allUnsetOrAllSet_getChosenObjectState c _ _ true⟩
    · exact ⟨h, h⟩
  · exact ⟨h, h⟩

theorem allUnsetOrAllSet_applyAction
    (c : Collaborators Meta ObjMeta BehMeta Tree Scope Container)
    (p : Parameters Scope Container) (instruction : gdInstruction)
    (state : NewInstructionEditorState Meta ObjMeta BehMeta Tree) (a : Action)
    (h : AllUnsetOrAllSet state) :
    AllUnsetOrAllSet (applyAction c p instruction state a).returned ∧
      AllUnsetOrAllSet (applyAction c p instruction state a).hookState := by
  cases a with
  | chooseFreeInstruction type =>
    exact ⟨allUnsetOrAllSet_unsetState, allUnsetOrAllSet_unsetState⟩
  | chooseObject objectName =>
    exact ⟨allUnsetOrAllSet_getChosenObjectState c _ objectName true,
      allUnsetOrAllSet_getChosenObjectState c _ objectName true⟩
  | chooseObjectInstruction type =>
    exact allUnsetOrAllSet_chooseObjectInstruction c _ state type h

theorem allUnsetOrAllSet_runActions
    (c : Collaborators Meta ObjMeta BehMeta Tree Scope Container)
    (p : Parameters Scope Container) (actions : List Action) :
    ∀ w : gdInstruction × NewInstructionEditorState Meta ObjMeta BehMeta Tree,
      AllUnsetOrAllSet w.2 → AllUnsetOrAllSet (runActions c p w actions).2 := by
  induction actions with
  | nil => intro w h; exact h
  | cons a actions ih =>
    intro w h
    exact ih _ (allUnsetOrAllSet_applyAction c p w.1 w.2 a h).2

/-- Claim C5: the state `getInitialState` returns, the state the hook holds after
any sequence of setter calls, and the state any further setter call returns all
have their three fields unset together or set together; in each of them
`chosenObjectName` is unset if and only if `chosenObjectInstructionsInfo` and
`chosenObjectInstructionsInfoTree` are both unset. -/
theorem session_states_all_unset_or_all_set
    (c : Collaborators Meta ObjMeta BehMeta Tree Scope Container)
    (p : Parameters Scope Container) (actions : List Action) :
    (AllUnsetOrAllSet (getInitialState c p).2 ∧
      ((getInitialState c p).2.chosenObjectName = none ↔
        ((getInitialState c p).2.chosenObjectInstructionsInfo = none ∧
          (getInitialState c p).2.chosenObjectInstructionsInfoTree = none))) ∧
    (AllUnsetOrAllSet (session c p actions).2 ∧
      ((session c p actions).2.chosenObjectName = none ↔
        ((session c p actions).2.chosenObjectInstructionsInfo = none ∧
          (session c p actions).2.chosenObjectInstructionsInfoTree = none))) ∧
    ∀ a : Action,
      AllUnsetOrAllSet
        (applyAction c p (session c p actions).1 (session c p actions).2 a).returned ∧
      ((applyAction c p (session c p actions).1
          (session c p actions).2 a).returned.chosenObjectName = none ↔
        ((applyAction c p (session c p actions).1
            (session c p actions).2 a).returned.chosenObjectInstructionsInfo = none ∧
          (applyAction c p (session c p actions).1
            (session c p actions).2 a).returned.chosenObjectInstructionsInfoTree = none)) := by
  have h0 := allUnsetOrAllSet_getInitialState c p
  have hs : AllUnsetOrAllSet (session c p actions).2 :=
    allUnsetOrAllSet_runActions c p actions _ h0
  refine ⟨⟨h0, allUnsetOrAllSet_iff_unset h0⟩, ⟨hs, allUnsetOrAllSet_iff_unset hs⟩, fun a => ?_⟩
  have ha := (allUnsetOrAllSet_applyAction c p (session c p actions).1
    (session c p actions).2 a hs).1
  exact ⟨ha, allUnsetOrAllSet_iff_unset ha⟩

/-! ## The state `chooseObject` returns -/

/-- Claim C6: `chooseObject(objectName)` returns, and commits, the state whose
`chosenObjectName` is `objectName`, whose `chosenObjectInstructionsInfo` is the
scope-filtered list of the instructions of `objectName`, and whose
`chosenObjectInstructionsInfoTree` is `createTree` of that list, whatever the
prior state; the instruction it returns is the handle of the hook, with its
parameters and with its declared type either kept or cleared. -/
theorem chooseObject_returns_object_state
    (c : Collaborators Meta ObjMeta BehMeta Tree Scope Container)
    (p : Parameters Scope Container)
    (state : NewInstructionEditorState Meta ObjMeta BehMeta Tree)
    (objectName : String) :
    (chooseObject c p state objectName).returned =
      { chosenObjectName := some objectName
        chosenObjectInstructionsInfo := some (scopedObjectInstructions c p objectName)
        chosenObjectInstructionsInfoTree :=
          some (c.createTree (scopedObjectInstructions c p objectName)) } ∧
    (chooseObject c p state objectName).hookState =
      (chooseObject c p state objectName).returned ∧
    ((chooseObject c p state objectName).instruction = p.instruction ∨
      (chooseObject c p state objectName).instruction = p.instruction.setType "") ∧
    (chooseObject c p state objectName).instruction.getParameter =
      p.instruction.getParameter := by
  have hi : (chooseObject c p state objectName).instruction = p.instruction ∨
      (chooseObject c p state objectName).instruction = p.instruction.setType "" := by
    by_cases h : p.instruction.getType ≠ "" ∧
        ∀ d ∈ scopedObjectInstructions c p objectName, d.type ≠ p.instruction.getType
    · exact Or.inr (getChosenObjectState_fst_of_absent c p objectName h.1 h.2)
    · exact Or.inl (getChosenObjectState_fst_of_not_absent c p objectName h)
  refine ⟨rfl, rfl, hi, ?_⟩
  rcases hi with h | h
  · rw [h]
  · rw [h]
    rfl

/-! ## The initial state of an object instruction -/

/-- Claim C7: for an instruction that is not new, whose declared type the catalog
lookup matches with a descriptor `d` tied to an object or to a behavior, with an
object parameter index other than `-1`, `getInitialState` returns the state whose
`chosenObjectName` is the parameter at that index, whose list is the
scope-filtered list of the instructions of that object and whose tree is
`createTree` of that list, whether or not the declared type occurs in the list;
the handle is left as it is. -/
theorem getInitialState_object_instruction
    (c : Collaborators Meta ObjMeta BehMeta Tree Scope Container)
    (p : Parameters Scope Container)
    (d : EnumeratedInstructionOrExpressionMetadata Meta ObjMeta BehMeta)
    (hnew : p.isNewInstruction = false)
    (hfind : findInstruction (c.enumerateInstructions p.isCondition) p.instruction.getType =
      some d)
    (hscope : d.scope.objectMetadata.isSome = true ∨ d.scope.behaviorMetadata.isSome = true)
    (hindex : c.getObjectParameterIndex d.metadata ≠ -1) :
    (getInitialState c p).2 =
      { chosenObjectName :=
          some (p.instruction.getParameter (c.getObjectParameterIndex d.metadata))
        chosenObjectInstructionsInfo :=
          some (scopedObjectInstructions c p
            (p.instruction.getParameter (c.getObjectParameterIndex d.metadata)))
        chosenObjectInstructionsInfoTree :=
          some (c.createTree (scopedObjectInstructions c p
            (p.instruction.getParameter (c.getObjectParameterIndex d.metadata)))) } ∧
    (getInitialState c p).1 = p.instruction := by
  have hb : (d.scope.objectMetadata.isSome || d.scope.behaviorMetadata.isSome) = true := by
    rcases hscope with h | h <;> simp [h]
  have hstate : getInitialState c p =
      getChosenObjectState c p
        (p.instruction.getParameter (c.getObjectParameterIndex d.metadata)) false := by
    unfold getInitialState
    simp [hnew, hfind, hb, hindex]
  rw [hstate]
  exact ⟨getChosenObjectState_snd c p _ false, getChosenObjectState_fst_false c p _⟩

/-- Scenario C of the specification, evaluated: the instruction
`ObjectA::Collision` with parameter 0 `Enemy`, an object that does not have that
instruction, reopens on `Enemy` with an empty list and keeps its declared
type. -/
theorem getInitialState_object_instruction_witness :
    (getInitialState sampleCollaborators
        (sampleParameters "ObjectA::Collision" "Enemy" false)).2 = sampleState "Enemy" ∧
    (getInitialState sampleCollaborators
        (sampleParameters "ObjectA::Collision" "Enemy" false)).1.getType =
      "ObjectA::Collision" :=
  ⟨(getInitialState_object_instruction sampleCollaborators
      (sampleParameters "ObjectA::Collision" "Enemy" false)
      (objectDescriptor "ObjectA::Collision" 1) rfl (by decide) (Or.inl rfl) (by decide)).1,
    rfl⟩

/-! ## The setter `chooseFreeInstruction` -/

/-- Claim C8: from every prior state and for every type, `chooseFreeInstruction(type)`
returns, and commits, the state whose three fields are unset, and leaves the
declared type of the handle equal to `type`. -/
theorem chooseFreeInstruction_resets_state
    (p : Parameters Scope Container)
    (state : NewInstructionEditorState Meta ObjMeta BehMeta Tree)
    (type : String) :
    (chooseFreeInstruction p state type).returned.chosenObjectName = none ∧
    (chooseFreeInstruction p state type).returned.chosenObjectInstructionsInfo = none ∧
    (chooseFreeInstruction p state type).returned.chosenObjectInstructionsInfoTree = none ∧
    (chooseFreeInstruction p state type).hookState = unsetState ∧
    (chooseFreeInstruction p state type).instruction.getType = type ∧
    (chooseFreeInstruction p state type).instruction = p.instruction.setType type :=
  ⟨rfl, rfl, rfl, rfl, rfl, rfl⟩

/-! ## `chooseObjectInstruction` with no object chosen -/

/-- Claim C9: when `chosenObjectName` is unset, `chooseObjectInstruction(type)`
sets the declared type of the handle to `type` and returns, and keeps, the prior
state; the result is the same whatever the imported functions are, so none of
them, the enumerator of object instructions included, decides it. -/
theorem chooseObjectInstruction_without_object
    (c : Collaborators Meta ObjMeta BehMeta Tree Scope Container)
    (p : Parameters Scope Container)
    (state : NewInstructionEditorState Meta ObjMeta BehMeta Tree)
    (type : String)
    (hunset : state.chosenObjectName = none) :
    (chooseObjectInstruction c p state type).instruction.getType = type ∧
    (chooseObjectInstruction c p state type).instruction = p.instruction.setType type ∧
    (chooseObjectInstruction c p state type).returned = state ∧
    (chooseObjectInstruction c p state type).hookState = state ∧
    ∀ c2 : Collaborators Meta ObjMeta BehMeta Tree Scope Container,
      chooseObjectInstruction c2 p state type = chooseObjectInstruction c p state type := by
  have h : ∀ c2 : Collaborators Meta ObjMeta BehMeta Tree Scope Container,
      chooseObjectInstruction c2 p state type =
        { instruction := p.instruction.setType type, returned := state, hookState := state } := by
    intro c2
    unfold chooseObjectInstruction
    simp [hunset]
  refine ⟨?_, ?_, ?_, ?_, fun c2 => ?_⟩
  · rw [h c]
    rfl
  · rw [h c]
  · rw [h c]
  · rw [h c]
  · rw [h c2, h c]

/-- Scenario F of the specification, evaluated: with no object chosen,
`chooseObjectInstruction("ObjectA::Collision")` declares the type and returns
the unset state. -/
theorem chooseObjectInstruction_without_object_witness :
    (chooseObjectInstruction sampleCollaborators (sampleParameters "" "" true)
        unsetState "ObjectA::Collision").instruction.getType = "ObjectA::Collision" ∧
    (chooseObjectInstruction sampleCollaborators (sampleParameters "" "" true)
        unsetState "ObjectA::Collision").returned = unsetState :=
  ⟨(chooseObjectInstruction_without_object sampleCollaborators (sampleParameters "" "" true)
      unsetState "ObjectA::Collision" rfl).1,
    (chooseObjectInstruction_without_object sampleCollaborators (sampleParameters "" "" true)
      unsetState "ObjectA::Collision" rfl).2.2.1⟩

/-! ## The initial state of a new instruction -/

/-- Claim C10: when the instruction is new, `getInitialState` returns the state
whose three fields are unset, whatever the declared type and the parameters of
the instruction, the mode, the scope, the containers and the catalog are. -/
theorem getInitialState_new_instruction
    (c : Collaborators Meta ObjMeta BehMeta Tree Scope Container)
    (p : Parameters Scope Container)
    (hnew : p.isNewInstruction = true) :
    (getInitialState c p).2 = unsetState ∧
    (getInitialState c p).2.chosenObjectName = none ∧
    (getInitialState c p).2.chosenObjectInstructionsInfo = none ∧
    (getInitialState c p).2.chosenObjectInstructionsInfoTree = none := by
  have h : getInitialState c p = (p.instruction, unsetState) := by
    unfold getInitialState
    simp [hnew]
  rw [h]
  exact ⟨rfl, rfl, rfl, rfl⟩

/-- Scenario A of the specification, evaluated: a new instruction, even one that
declares the object instruction `ObjectA::Collision` on `Player`, starts in the
unset state. -/
theorem getInitialState_new_instruction_witness :
    (getInitialState sampleCollaborators
      (sampleParameters "ObjectA::Collision" "Player" true)).2 = unsetState :=
  (getInitialState_new_instruction sampleCollaborators
    (sampleParameters "ObjectA::Collision" "Player" true) rfl).1

/-! ## The initial state of an instruction that is not an object instruction -/

/-- Claim C11: for an instruction that is not new, whose declared type the
catalog lookup matches with a descriptor `d` tied neither to an object nor to a
behavior, `getInitialState` returns the state whose three fields are unset,
whatever the parameters of the instruction are. -/
theorem getInitialState_free_instruction
    (c : Collaborators Meta ObjMeta BehMeta Tree Scope Container)
    (p : Parameters Scope Container)
    (d : EnumeratedInstructionOrExpressionMetadata Meta ObjMeta BehMeta)
    (hnew : p.isNewInstruction = false)
    (hfind : findInstruction (c.enumerateInstructions p.isCondition) p.instruction.getType =
      some d)
    (hobject : d.scope.objectMetadata = none)
    (hbehavior : d.scope.behaviorMetadata = none) :
    (getInitialState c p).2 = unsetState ∧
    ∀ getParameter : Int → String,
      (getInitialState c
        { p with instruction := { p.instruction with getParameter := getParameter } }).2 =
        unsetState := by
  have h : ∀ getParameter : Int → String,
      (getInitialState c
        { p with instruction := { p.instruction with getParameter := getParameter } }).2 =
        unsetState := by
    intro getParameter
    have hfind2 : findInstruction (c.enumerateInstructions p.isCondition)
        (gdInstruction.getType { p.instruction with getParameter := getParameter }) =
        some d := hfind
    unfold getInitialState
    simp [hnew, hfind2, hobject, hbehavior]
  exact ⟨h p.instruction.getParameter, h⟩

/-- Scenario B of the specification, evaluated: the existing free instruction
`Free::Wait` reopens in the unset state although its parameter 0 names the
object `Player`. -/
theorem getInitialState_free_instruction_witness :
    (getInitialState sampleCollaborators
      (sampleParameters "Free::Wait" "Player" false)).2 = unsetState :=
  (getInitialState_free_instruction sampleCollaborators
    (sampleParameters "Free::Wait" "Player" false)
    (freeDescriptor "Free::Wait" 0) rfl (by decide) rfl rfl).1

/-- Claim C12: for an instruction that is not new, whose declared type is the
type identifier of no descriptor of the unfiltered catalog, `getInitialState`
returns a result, the state whose three fields are unset, and leaves the handle
as it is. -/
theorem getInitialState_unknown_type
    (c : Collaborators Meta ObjMeta BehMeta Tree Scope Container)
    (p : Parameters Scope Container)
    (hnew : p.isNewInstruction = false)
    (hunknown : ∀ d ∈ c.enumerateInstructions p.isCondition, d.type ≠ p.instruction.getType) :
    getInitialState c p = (p.instruction, unsetState) ∧
    (getInitialState c p).2 = unsetState := by
  have hfind := (findInstruction_eq_none_iff _ _).2 hunknown
  have h : getInitialState c p = (p.instruction, unsetState) := by
    unfold getInitialState
    simp [hnew, hfind]
  exact ⟨h, by rw [h]⟩

/-- The claim C12 at a concrete input: the type `Stale::Gone` is not in the
sample catalog. -/
theorem getInitialState_unknown_type_witness :
    (getInitialState sampleCollaborators
      (sampleParameters "Stale::Gone" "Player" false)).2 = unsetState :=
  (getInitialState_unknown_type sampleCollaborators
    (sampleParameters "Stale::Gone" "Player" false) rfl (by decide)).2

/-- Claim C13: for an instruction that is not new, whose declared type the
catalog lookup matches with a descriptor `d` tied to an object or to a behavior
for which `getObjectParameterIndex` gives `-1`, `getInitialState` returns a
result, the state whose three fields are unset, with the handle as it is; the
state is the same whatever `getParameter` answers, so no parameter decides it. -/
theorem getInitialState_without_object_parameter
    (c : Collaborators Meta ObjMeta BehMeta Tree Scope Container)
    (p : Parameters Scope Container)
    (d : EnumeratedInstructionOrExpressionMetadata Meta ObjMeta BehMeta)
    (hnew : p.isNewInstruction = false)
    (hfind : findInstruction (c.enumerateInstructions p.isCondition) p.instruction.getType =
      some d)
    (hscope : d.scope.objectMetadata.isSome = true ∨ d.scope.behaviorMetadata.isSome = true)
    (hindex : c.getObjectParameterIndex d.metadata = -1) :
    getInitialState c p = (p.instruction, unsetState) ∧
    ∀ getParameter : Int → String,
      (getInitialState c
        { p with instruction := { p.instruction with getParameter := getParameter } }).2 =
        unsetState := by
  have hb : (d.scope.objectMetadata.isSome || d.scope.behaviorMetadata.isSome) = true := by
    rcases hscope with h | h
    · simp [h]
    · simp [h]
  constructor
  · unfold getInitialState
    simp [hnew, hfind, hb, hindex]
  · intro getParameter
    have hfind2 : findInstruction (c.enumerateInstructions p.isCondition)
        (gdInstruction.getType { p.instruction with getParameter := getParameter }) =
        some d := hfind
    unfold getInitialState
    simp [hnew, hfind2, hb, hindex]

/-- The claim C13 at a concrete input: the object instruction `ObjectA::Broken`
has no object parameter (metadata `0`, index `-1`). -/
theorem getInitialState_without_object_parameter_witness :
    (getInitialState (catalogCollaborators [objectDescriptor "ObjectA::Broken" 0])
      (sampleParameters "ObjectA::Broken" "Player" false)).2 = unsetState :=
  congrArg Prod.snd
    (getInitialState_without_object_parameter
      (catalogCollaborators [objectDescriptor "ObjectA::Broken" 0])
      (sampleParameters "ObjectA::Broken" "Player" false)
      (objectDescriptor "ObjectA::Broken" 0) rfl (by decide) (Or.inl rfl) (by decide)).1

/-! ## Choosing the same object twice -/

/-- Claim C14: calling `chooseObject(X)` and then `chooseObject(X)` again, on the
handle and the state the first call left, returns and commits the same state as
the first call, and the handle, so its declared type, is after the second call
what it was after the first. -/
theorem chooseObject_twice
    (c : Collaborators Meta ObjMeta BehMeta Tree Scope Container)
    (p : Parameters Scope Container)
    (state : NewInstructionEditorState Meta ObjMeta BehMeta Tree)
    (objectName : String) :
    (chooseObject c { p with instruction := (chooseObject c p state objectName).instruction }
        (chooseObject c p state objectName).hookState objectName).returned =
      (chooseObject c p state objectName).returned ∧
    (chooseObject c { p with instruction := (chooseObject c p state objectName).instruction }
        (chooseObject c p state objectName).hookState objectName).hookState =
      (chooseObject c p state objectName).hookState ∧
    (chooseObject c { p with instruction := (chooseObject c p state objectName).instruction }
        (chooseObject c p state objectName).hookState objectName).instruction =
      (chooseObject c p state objectName).instruction ∧
    (chooseObject c { p with instruction := (chooseObject c p state objectName).instruction }
        (chooseObject c p state objectName).hookState objectName).instruction.getType =
      (chooseObject c p state objectName).instruction.getType := by
  have hkeep : (chooseObject c
      { p with instruction := (chooseObject c p state objectName).instruction }
      (chooseObject c p state objectName).hookState objectName).instruction =
      (chooseObject c p state objectName).instruction := by
    apply getChosenObjectState_fst_of_not_absent c
      { p with instruction := (chooseObject c p state objectName).instruction } objectName
    intro hc
    by_cases h : p.instruction.getType ≠ "" ∧
        ∀ d ∈ scopedObjectInstructions c p objectName, d.type ≠ p.instruction.getType
    · have h1 : (chooseObject c p state objectName).instruction = p.instruction.setType "" :=
        getChosenObjectState_fst_of_absent c p objectName h.1 h.2
      apply hc.1
      show (chooseObject c p state objectName).instruction.getType = ""
      rw [h1]
      rfl
    · have h1 : (chooseObject c p state objectName).instruction = p.instruction :=
        getChosenObjectState_fst_of_not_absent c p objectName h
      apply h
      have hc1 : (chooseObject c p state objectName).instruction.getType ≠ "" := hc.1
      have hc2 : ∀ d ∈ scopedObjectInstructions c p objectName,
          d.type ≠ (chooseObject c p state objectName).instruction.getType := hc.2
      rw [h1] at hc1 hc2
      exact ⟨hc1, hc2⟩
  exact ⟨rfl, rfl, hkeep, by rw [hkeep]⟩

/-! ## Leaving an object -/

/-- Claim C15: from a state whose `chosenObjectName` is set, `chooseObject` and
`chooseObjectInstruction` return and commit a state whose `chosenObjectName` is
set, never the unset state, for every object name and every type, while
`chooseFreeInstruction` returns and commits the unset state. -/
theorem object_state_left_only_by_chooseFreeInstruction
    (c : Collaborators Meta ObjMeta BehMeta Tree Scope Container)
    (p : Parameters Scope Container)
    (state : NewInstructionEditorState Meta ObjMeta BehMeta Tree)
    (n : String)
    (hset : state.chosenObjectName = some n) :
    (∀ objectName : String,
      (chooseObject c p state objectName).returned.chosenObjectName = some objectName ∧
      (chooseObject c p state objectName).returned ≠ unsetState ∧
      (chooseObject c p state objectName).hookState ≠ unsetState) ∧
    (∀ type : String,
      (chooseObjectInstruction c p state type).returned.chosenObjectName = some n ∧
      (chooseObjectInstruction c p state type).returned ≠ unsetState ∧
      (chooseObjectInstruction c p state type).hookState ≠ unsetState) ∧
    (∀ type : String,
      (chooseFreeInstruction p state type).returned = unsetState ∧
      (chooseFreeInstruction p state type).hookState = unsetState) := by
  have hne : ∀ (s : NewInstructionEditorState Meta ObjMeta BehMeta Tree) (m : String),
      s.chosenObjectName = some m → s ≠ unsetState := by
    intro s m hs heq
    rw [heq] at hs
    exact absurd hs (by simp [unsetState])
  refine ⟨fun objectName => ⟨rfl, hne _ objectName rfl, hne _ objectName rfl⟩,
    fun type => ?_, fun type => ⟨rfl, rfl⟩⟩
  have hret : (chooseObjectInstruction c p state type).returned.chosenObjectName = some n ∧
      (chooseObjectInstruction c p state type).hookState.chosenObjectName = some n := by
    unfold chooseObjectInstruction
    by_cases ht : truthy n = true
    · simp [hset, ht, getChosenObjectState]
    · simp [hset, ht]
  exact ⟨hret.1, hne _ n hret.1, hne _ n hret.2⟩

/-- The claim C15 at a concrete input: from the state with `Player` chosen,
choosing `Enemy` or choosing an instruction gives a state with an object, and
`chooseFreeInstruction` gives the unset state. -/
theorem object_state_left_only_by_chooseFreeInstruction_witness :
    (chooseObject sampleCollaborators (sampleParameters "" "" true)
        (sampleState "Player") "Enemy").returned.chosenObjectName = some "Enemy" ∧
    (chooseObjectInstruction sampleCollaborators (sampleParameters "" "" true)
        (sampleState "Player") "Free::Wait").returned.chosenObjectName = some "Player" ∧
    (chooseFreeInstruction (sampleParameters "" "" true)
        (sampleState "Player") "Free::Wait").returned = unsetState :=
  ⟨((object_state_left_only_by_chooseFreeInstruction sampleCollaborators
      (sampleParameters "" "" true) (sampleState "Player") "Player" rfl).1 "Enemy").1,
    ((object_state_left_only_by_chooseFreeInstruction sampleCollaborators
      (sampleParameters "" "" true) (sampleState "Player") "Player" rfl).2.1 "Free::Wait").1,
    rfl⟩

/-! ## The list and the tree of a reachable state -/

theorem objectStateCoherent_unsetState
    (c : Collaborators Meta ObjMeta BehMeta Tree Scope Container)
    (p : Parameters Scope Container) :
    ObjectStateCoherent c p unsetState := by
  intro n hn
  exact absurd hn (by simp [unsetState])

theorem objectStateCoherent_getChosenObjectState
    (c : Collaborators Meta ObjMeta BehMeta Tree Scope Container)
    (p : Parameters Scope Container) (instruction : gdInstruction)
    (objectName : String) (discard : Bool) :
    ObjectStateCoherent c p
      (getChosenObjectState c { p with instruction := instruction } objectName discard).2 := by
  intro n hn
  have hname : objectName = n := Option.some.inj hn
  subst hname
  exact ⟨rfl, rfl⟩

theorem objectStateCoherent_getInitialState
    (c : Collaborators Meta ObjMeta BehMeta Tree Scope Container)
    (p : Parameters Scope Container) :
    ObjectStateCoherent c p (getInitialState c p).2 := by
  unfold getInitialState
  dsimp only
  split
  · split
    · split
      · split
        · exact objectStateCoherent_getChosenObjectState c p p.instruction _ false
        · exact objectStateCoherent_unsetState c p
      · exact objectStateCoherent_unsetState c p
    · exact objectStateCoherent_unsetState c p
  · exact objectStateCoherent_unsetState c p

/-- In a coherent state `chooseObjectInstruction` returns and commits the state
it was called in. -/
theorem chooseObjectInstruction_state_of_coherent
    (c : Collaborators Meta ObjMeta BehMeta Tree Scope Container)
    (p : Parameters Scope Container) (instruction : gdInstruction)
    (state : NewInstructionEditorState Meta ObjMeta BehMeta Tree) (type : String)
    (h : ObjectStateCoherent c p state) :
    (chooseObjectInstruction c { p with instruction := instruction } state type).returned =
        state ∧
      (chooseObjectInstruction c { p with instruction := instruction } state type).hookState =
        state := by
  rcases state with ⟨name, info, tree⟩
  cases name with
  | none => exact ⟨rfl, rfl⟩
  | some n =>
    obtain ⟨hinfo, htree⟩ := h n rfl
    simp only at hinfo htree
    subst hinfo htree
    unfold chooseObjectInstruction
    by_cases ht : truthy n = true
    · simp only [ht, if_true]
      exact ⟨rfl, rfl⟩
    · simp only [ht]
      exact ⟨rfl, rfl⟩

theorem objectStateCoherent_applyAction
    (c : Collaborators Meta ObjMeta BehMeta Tree Scope Container)
    (p : Parameters Scope Container) (instruction : gdInstruction)
    (state : NewInstructionEditorState Meta ObjMeta BehMeta Tree) (a : Action)
    (h : ObjectStateCoherent c p state) :
    ObjectStateCoherent c p (applyAction c p instruction state a).hookState := by
  cases a with
  | chooseFreeInstruction type => exact objectStateCoherent_unsetState c p
  | chooseObject objectName =>
    exact objectStateCoherent_getChosenObjectState c p instruction objectName true
  | chooseObjectInstruction type =>
    have hs := (chooseObjectInstruction_state_of_coherent c p instruction state type h).2
    show ObjectStateCoherent c p
      (chooseObjectInstruction c { p with instruction := instruction } state type).hookState
    rw [hs]
    exact h

theorem objectStateCoherent_runActions
    (c : Collaborators Meta ObjMeta BehMeta Tree Scope Container)
    (p : Parameters Scope Container) (actions : List Action) :
    ∀ w : gdInstruction × NewInstructionEditorState Meta ObjMeta BehMeta Tree,
      ObjectStateCoherent c p w.2 → ObjectStateCoherent c p (runActions c p w actions).2 := by
  induction actions with
  | nil => intro w h; exact h
  | cons a actions ih =>
    intro w h
    exact ih _ (objectStateCoherent_applyAction c p w.1 w.2 a h)

theorem objectStateCoherent_session
    (c : Collaborators Meta ObjMeta BehMeta Tree Scope Container)
    (p : Parameters Scope Container) (actions : List Action) :
    ObjectStateCoherent c p (session c p actions).2 :=
  objectStateCoherent_runActions c p actions _ (objectStateCoherent_getInitialState c p)

/-- Every setter commits the state it returns. -/
theorem applyAction_hookState_eq_returned
    (c : Collaborators Meta ObjMeta BehMeta Tree Scope Container)
    (p : Parameters Scope Container) (instruction : gdInstruction)
    (state : NewInstructionEditorState Meta ObjMeta BehMeta Tree) (a : Action) :
    (applyAction c p instruction state a).hookState =
      (applyAction c p instruction state a).returned := by
  cases a with
  | chooseFreeInstruction type => rfl
  | chooseObject objectName => rfl
  | chooseObjectInstruction type =>
    show (chooseObjectInstruction c { p with instruction := instruction } state type).hookState =
      (chooseObjectInstruction c { p with instruction := instruction } state type).returned
    unfold chooseObjectInstruction
    dsimp only
    split
    · split
      · rfl
      · rfl
    · rfl

/-- Claim C16: in the state the hook holds after `getInitialState` and any
sequence of setter calls, if `chosenObjectName` is set to `n` then
`chosenObjectInstructionsInfo` is the scope-filtered list of the instructions of
`n` and `chosenObjectInstructionsInfoTree` is `createTree` of that list. That
list is the same for every instruction handle, and two sessions of hooks with
the same mode, scope and containers that reach the same object hold the same
list and the same tree, whatever their instructions and setter calls. -/
theorem session_object_state_coherent
    (c : Collaborators Meta ObjMeta BehMeta Tree Scope Container)
    (p : Parameters Scope Container) (actions : List Action) (n : String)
    (hn : (session c p actions).2.chosenObjectName = some n) :
    (session c p actions).2.chosenObjectInstructionsInfo =
      some (scopedObjectInstructions c p n) ∧
    (session c p actions).2.chosenObjectInstructionsInfoTree =
      some (c.createTree (scopedObjectInstructions c p n)) ∧
    (∀ instruction : gdInstruction,
      scopedObjectInstructions c { p with instruction := instruction } n =
        scopedObjectInstructions c p n) ∧
    ∀ (p2 : Parameters Scope Container) (actions2 : List Action),
      p2.isCondition = p.isCondition → p2.scope = p.scope →
      p2.globalObjectsContainer = p.globalObjectsContainer →
      p2.objectsContainer = p.objectsContainer →
      (session c p2 actions2).2.chosenObjectName = some n →
      (session c p2 actions2).2.chosenObjectInstructionsInfo =
          (session c p actions).2.chosenObjectInstructionsInfo ∧
        (session c p2 actions2).2.chosenObjectInstructionsInfoTree =
          (session c p actions).2.chosenObjectInstructionsInfoTree := by
  obtain ⟨hinfo, htree⟩ := objectStateCoherent_session c p actions n hn
  refine ⟨hinfo, htree, fun _ => rfl, ?_⟩
  intro p2 actions2 hmode hscope hglobal hobjects hn2
  obtain ⟨hinfo2, htree2⟩ := objectStateCoherent_session c p2 actions2 n hn2
  have hlist : scopedObjectInstructions c p2 n = scopedObjectInstructions c p n := by
    unfold scopedObjectInstructions
    rw [hmode, hscope, hglobal, hobjects]
  rw [hinfo, htree, hinfo2, htree2, hlist]
  exact ⟨rfl, rfl⟩

/-- The claim C16 at a concrete input: after choosing `Enemy`, an instruction,
and then `Player`, the hook holds the list and the tree of `Player`. -/
theorem session_object_state_coherent_witness :
    (session sampleCollaborators (sampleParameters "" "" true)
        [Action.chooseObject "Enemy", Action.chooseObjectInstruction "Free::Wait",
          Action.chooseObject "Player"]).2.chosenObjectInstructionsInfo =
      some [objectDescriptor "ObjectA::Collision" 1] :=
  (session_object_state_coherent sampleCollaborators (sampleParameters "" "" true)
    [Action.chooseObject "Enemy", Action.chooseObjectInstruction "Free::Wait",
      Action.chooseObject "Player"] "Player" rfl).1

/-! ## An object without instructions -/

/-- Claim C17: when `enumerateObjectInstructions` gives the empty list for
`objectName` and the scope filter always returns a sub-list of its input,
`chooseObject(objectName)` returns and commits a result: the state with
`chosenObjectName` set to `objectName`, an empty list and the tree
`createTree([])`, which is not the unset state since `chosenObjectName` is set. -/
theorem chooseObject_object_without_instructions
    (c : Collaborators Meta ObjMeta BehMeta Tree Scope Container)
    (p : Parameters Scope Container)
    (state : NewInstructionEditorState Meta ObjMeta BehMeta Tree)
    (objectName : String)
    (hempty : c.enumerateObjectInstructions p.isCondition p.globalObjectsContainer
      p.objectsContainer objectName = [])
    (hfilter : ∀ (list : List (EnumeratedInstructionOrExpressionMetadata Meta ObjMeta BehMeta))
      (scope : Scope),
      List.Sublist (c.filterEnumeratedInstructionOrExpressionMetadataByScope list scope) list) :
    (chooseObject c p state objectName).returned =
      { chosenObjectName := some objectName
        chosenObjectInstructionsInfo := some []
        chosenObjectInstructionsInfoTree := some (c.createTree []) } ∧
    (chooseObject c p state objectName).hookState =
      (chooseObject c p state objectName).returned ∧
    (chooseObject c p state objectName).returned ≠ unsetState ∧
    (chooseObject c p state objectName).returned.chosenObjectName ≠
      (unsetState : NewInstructionEditorState Meta ObjMeta BehMeta Tree).chosenObjectName := by
  have hlist : scopedObjectInstructions c p objectName = [] := by
    unfold scopedObjectInstructions
    rw [hempty]
    exact List.sublist_nil.1 (hfilter [] p.scope)
  have hret : (chooseObject c p state objectName).returned =
      { chosenObjectName := some objectName
        chosenObjectInstructionsInfo := some []
        chosenObjectInstructionsInfoTree := some (c.createTree []) } := by
    have h := getChosenObjectState_snd c p objectName true
    rw [hlist] at h
    exact h
  refine ⟨hret, rfl, ?_, ?_⟩
  · rw [hret]
    simp [unsetState]
  · rw [hret]
    simp [unsetState]

/-- The claim C17 at a concrete input: the object `Gone` has no instruction in
the sample collaborators, whose filter keeps every list as it is. -/
theorem chooseObject_object_without_instructions_witness :
    (chooseObject sampleCollaborators (sampleParameters "" "" true) unsetState "Gone").returned =
      { chosenObjectName := some "Gone"
        chosenObjectInstructionsInfo := some []
        chosenObjectInstructionsInfoTree := some [] } :=
  (chooseObject_object_without_instructions sampleCollaborators (sampleParameters "" "" true)
    unsetState "Gone" rfl (fun list _ => List.Sublist.refl list)).1

/-! ## The initial state of an instruction without a declared type -/

/-- Claim C18, as stated, fails: when the catalog holds an object instruction
whose type identifier is the empty string, an existing instruction with an empty
declared type and `Player` as parameter 0 reopens with `Player` chosen, not in
the unset state. -/
theorem getInitialState_empty_type_counterexample :
    (sampleParameters "" "Player" false).instruction.getType = "" ∧
    (getInitialState (catalogCollaborators [objectDescriptor "" 1])
        (sampleParameters "" "Player" false)).2.chosenObjectName = some "Player" ∧
    (getInitialState (catalogCollaborators [objectDescriptor "" 1])
        (sampleParameters "" "Player" false)).2 ≠ unsetState := by
  decide

/-- Claim C18, amended: for an instruction that is not new and whose declared
type is the empty string, `getInitialState` returns the unset state exactly when
the catalog lookup of the empty type identifier does not find a descriptor tied
to an object or a behavior with an object parameter index other than `-1`; in
particular it does whenever no descriptor of the catalog has the empty type
identifier. -/
theorem getInitialState_empty_type
    (c : Collaborators Meta ObjMeta BehMeta Tree Scope Container)
    (p : Parameters Scope Container)
    (hnew : p.isNewInstruction = false)
    (hempty : p.instruction.getType = "") :
    ((getInitialState c p).2 = unsetState ↔
      ¬ ∃ d, findInstruction (c.enumerateInstructions p.isCondition) "" = some d ∧
        (d.scope.objectMetadata.isSome = true ∨ d.scope.behaviorMetadata.isSome = true) ∧
        c.getObjectParameterIndex d.metadata ≠ -1) ∧
    ((∀ d ∈ c.enumerateInstructions p.isCondition, d.type ≠ "") →
      (getInitialState c p).2 = unsetState) := by
  have hiff : (getInitialState c p).2 = unsetState ↔
      ¬ ∃ d, findInstruction (c.enumerateInstructions p.isCondition) "" = some d ∧
        (d.scope.objectMetadata.isSome = true ∨ d.scope.behaviorMetadata.isSome = true) ∧
        c.getObjectParameterIndex d.metadata ≠ -1 := by
    cases hf : findInstruction (c.enumerateInstructions p.isCondition) "" with
    | none =>
      have h : getInitialState c p = (p.instruction, unsetState) := by
        unfold getInitialState
        simp [hnew, hempty, hf]
      rw [h]
      simp
    | some d =>
      by_cases hb : (d.scope.objectMetadata.isSome || d.scope.behaviorMetadata.isSome) = true
      · by_cases hi : c.getObjectParameterIndex d.metadata = -1
        · have h : getInitialState c p = (p.instruction, unsetState) := by
            unfold getInitialState
            simp [hnew, hempty, hf, hb, hi]
          rw [h]
          simp [hi]
        · have h : getInitialState c p =
              getChosenObjectState c p
                (p.instruction.getParameter (c.getObjectParameterIndex d.metadata)) false := by
            unfold getInitialState
            simp [hnew, hempty, hf, hb, hi]
          rw [h]
          constructor
          · intro hu
            have hname := congrArg NewInstructionEditorState.chosenObjectName hu
            exact absurd hname (by simp [getChosenObjectState, unsetState])
          · intro hno
            exact absurd ⟨d, rfl, by simpa using hb, hi⟩ hno
      · have h : getInitialState c p = (p.instruction, unsetState) := by
          unfold getInitialState
          simp [hnew, hempty, hf, hb]
        rw [h]
        have hb2 : ¬ (d.scope.objectMetadata.isSome = true ∨
            d.scope.behaviorMetadata.isSome = true) := by simpa using hb
        simp [hb2]
  refine ⟨hiff, fun hnone => hiff.2 ?_⟩
  rintro ⟨d, hd, -, -⟩
  exact hnone d (findInstruction_some_type hd).1 (findInstruction_some_type hd).2

/-- The amended claim C18 at a concrete input: with the sample catalog, which
has no empty type identifier, an existing instruction without a declared type
reopens in the unset state. -/
theorem getInitialState_empty_type_witness :
    (getInitialState sampleCollaborators (sampleParameters "" "Player" false)).2 = unsetState :=
  (getInitialState_empty_type sampleCollaborators (sampleParameters "" "Player" false)
    rfl rfl).2 (by decide)

/-! ## The refresh of `chooseObjectInstruction` -/

theorem getChosenObjectState_fst_getParameter
    (c : Collaborators Meta ObjMeta BehMeta Tree Scope Container)
    (p : Parameters Scope Container) (objectName : String) (discard : Bool) :
    (getChosenObjectState c p objectName discard).1.getParameter =
      p.instruction.getParameter := by
  unfold getChosenObjectState
  dsimp only
  split
  · split
    · rfl
    · rfl
  · rfl

theorem chooseObjectInstruction_getParameter
    (c : Collaborators Meta ObjMeta BehMeta Tree Scope Container)
    (p : Parameters Scope Container)
    (state : NewInstructionEditorState Meta ObjMeta BehMeta Tree) (type : String) :
    (chooseObjectInstruction c p state type).instruction.getParameter =
      p.instruction.getParameter := by
  unfold chooseObjectInstruction
  dsimp only
  split
  · split
    · exact getChosenObjectState_fst_getParameter c _ _ true
    · rfl
  · rfl

/-- Claim C19: in the state the hook holds after `getInitialState` and any
sequence of setter calls, `chooseObjectInstruction(type)` returns and commits
the very state it was called in, for every type; of the handle it leaves the
parameters as they were, so only the declared type can change. -/
theorem chooseObjectInstruction_keeps_reachable_state
    (c : Collaborators Meta ObjMeta BehMeta Tree Scope Container)
    (p : Parameters Scope Container) (actions : List Action) (type : String) :
    (chooseObjectInstruction c { p with instruction := (session c p actions).1 }
        (session c p actions).2 type).returned = (session c p actions).2 ∧
    (chooseObjectInstruction c { p with instruction := (session c p actions).1 }
        (session c p actions).2 type).hookState = (session c p actions).2 ∧
    (chooseObjectInstruction c { p with instruction := (session c p actions).1 }
        (session c p actions).2 type).instruction.getParameter =
      (session c p actions).1.getParameter := by
  obtain ⟨hreturned, hhook⟩ := chooseObjectInstruction_state_of_coherent c p
    (session c p actions).1 (session c p actions).2 type
    (objectStateCoherent_session c p actions)
  exact ⟨hreturned, hhook, chooseObjectInstruction_getParameter c _ _ type⟩

/-! ## The helper `getInstructionMetadata` -/

/-- Claim C20: `getInstructionMetadata` returns `null` when `instructionType` is
the empty string, whatever the metadata provider and the project are; for a
non-empty `instructionType` it returns the condition metadata the provider gives
for the current platform of the project and `instructionType` when `isCondition`
is true, and the action metadata the provider gives for them otherwise. -/
theorem getInstructionMetadata_result {Project Platform InstructionMetadata : Type}
    (gd : MetadataHost Project Platform InstructionMetadata)
    (instructionType : String) (isCondition : Bool) (project : Project) :
    (instructionType = "" →
      getInstructionMetadata gd instructionType isCondition project = none ∧
      ∀ (gd2 : MetadataHost Project Platform InstructionMetadata) (project2 : Project),
        getInstructionMetadata gd2 instructionType isCondition project2 = none) ∧
    (instructionType ≠ "" →
      (isCondition = true →
        getInstructionMetadata gd instructionType isCondition project =
          some (gd.getConditionMetadata (gd.getCurrentPlatform project) instructionType)) ∧
      (isCondition = false →
        getInstructionMetadata gd instructionType isCondition project =
          some (gd.getActionMetadata (gd.getCurrentPlatform project) instructionType))) := by
  constructor
  · intro hempty
    have h : ∀ (gd2 : MetadataHost Project Platform InstructionMetadata) (project2 : Project),
        getInstructionMetadata gd2 instructionType isCondition project2 = none := by
      intro gd2 project2
      unfold getInstructionMetadata
      simp [(truthy_eq_false_iff instructionType).2 hempty]
    exact ⟨h gd project, h⟩
  · intro hne
    constructor
    · intro hc
      unfold getInstructionMetadata
      simp [(truthy_eq_true_iff instructionType).2 hne, hc]
    · intro hc
      unfold getInstructionMetadata
      simp [(truthy_eq_true_iff instructionType).2 hne, hc]

/-- The claim C20 evaluated: no metadata for the empty type, the condition
metadata of `Collision` in condition mode, its action metadata otherwise. -/
theorem getInstructionMetadata_result_witness :
    getInstructionMetadata sampleMetadataHost "" true "JS platform" = none ∧
    getInstructionMetadata sampleMetadataHost "Collision" true "JS platform" =
      some ("condition", "JS platform", "Collision") ∧
    getInstructionMetadata sampleMetadataHost "Collision" false "JS platform" =
      some ("action", "JS platform", "Collision") :=
  ⟨((getInstructionMetadata_result sampleMetadataHost "" true "JS platform").1 rfl).1,
    ((getInstructionMetadata_result sampleMetadataHost "Collision" true "JS platform").2
      (by decide)).1 rfl,
    ((getInstructionMetadata_result sampleMetadataHost "Collision" false "JS platform").2
      (by decide)).2 rfl⟩

end Lemmas

end NewInstructionEditor
